import Mathlib

/-!
Shallow embedding of the PapilioSPI library (src/PapilioSPI.h,
src/PapilioSPI.cpp): an Arduino-style master-side SPI transport for Papilio
FPGA modules.  The class state is the record `PapilioSPI` below; the external
`SPIClass` device is a deterministic state machine passed to each operation;
every hardware-touching call (pin writes, settle delays, SPI transaction
brackets, byte exchanges) is recorded in an event trace so that claims about
physical activity and select-line discipline can be stated.  Machine integers
are `Nat` with explicit `% 2 ^ 8` / `% 2 ^ 32` truncation at the points where
the C++ types truncate.
-/

/-- Hardware-level events emitted by the library: select-pin configuration,
digital pin writes (`true` is HIGH, the idle level), microsecond settle
delays, SPI transaction brackets carrying the `SPISettings(speed, order,
mode)` that were applied, and one full-duplex byte exchange recording the
sent and the received byte. -/
inductive Event where
  | pinModeOutput (pin : Int)
  | write (pin : Int) (level : Bool)
  | delayMicros (us : Nat)
  | beginTrans (speed : Nat) (order : Nat) (mode : Nat)
  | endTrans
  | exchange (tx rx : Nat)
deriving DecidableEq

/-- Model of the external `SPIClass` device as a deterministic state machine
over a state type `σ`: `step` maps the device state and the sent byte to the
received byte and the next device state. -/
structure SpiDevice (σ : Type) where
  step : σ → Nat → Nat × σ

/-- Arduino clock mode constant SPI_MODE0. -/
def SPI_MODE0 : Nat := 0

/-- Arduino clock mode constant SPI_MODE1. -/
def SPI_MODE1 : Nat := 1

/-- Arduino clock mode constant SPI_MODE2. -/
def SPI_MODE2 : Nat := 2

/-- Arduino clock mode constant SPI_MODE3, the largest accepted mode. -/
def SPI_MODE3 : Nat := 3

/-- Arduino bit-order constant MSBFIRST, always passed to `SPISettings` by
`_beginTransaction`. -/
def MSBFIRST : Nat := 1

/-- One call of `_spi->transfer(tx)` on the external device: the sent byte is
handed to the device and the returned value is truncated to `uint8_t`,
matching the return type of `SPIClass::transfer`. -/
def devXfer {σ : Type} (d : SpiDevice σ) (s : σ) (tx : Nat) : Nat × σ :=
  ((d.step s tx).1 % 2 ^ 8, (d.step s tx).2)

/-- State of one link handle: the private fields of class `PapilioSPI`.  The
`SPIClass*` pointer is modelled by whether it is non-null (`_spi`); the
device behaviour itself is the `SpiDevice` passed to each operation. -/
structure PapilioSPI where
  _spi : Bool
  _cs : Int
  _speed : Nat
  _mode : Nat
  _bitWidth : Nat
  _initialized : Bool
deriving DecidableEq

namespace PapilioSPI

/-- Default constructor `PapilioSPI::PapilioSPI`: null spi pointer, cs −1,
speed 1000000, SPI_MODE0, bit width 8, not initialized. -/
def ctor : PapilioSPI :=
  ⟨false, -1, 1000000, SPI_MODE0, 8, false⟩

/-- Method `PapilioSPI::begin`: stores the arguments, resets the bit width to
8, configures the select pin as an output driving HIGH, marks the handle
initialized and returns true.  Every field of the handle is assigned, so the
prior state does not appear.  Result: (returned bool, new handle state,
hardware events). -/
def begin (spiNonNull : Bool) (cs_pin : Int) (speed : Nat) (mode : Nat) :
    Bool × PapilioSPI × List Event :=
  (true, ⟨spiNonNull, cs_pin, speed % 2 ^ 32, mode % 2 ^ 8, 8, true⟩,
    [Event.pinModeOutput cs_pin, Event.write cs_pin true])

/-- Method `PapilioSPI::end` (named `endSpi` because `end` is a Lean keyword):
clears the initialized flag and nulls the spi pointer. -/
def endSpi (p : PapilioSPI) : PapilioSPI :=
  { p with _initialized := false, _spi := false }

/-- Helper `PapilioSPI::_beginTransaction`: when the spi pointer is non-null,
applies `SPISettings(_speed, MSBFIRST, _mode)` to the link. -/
def _beginTransaction (p : PapilioSPI) : List Event :=
  if p._spi then [Event.beginTrans p._speed MSBFIRST p._mode] else []

/-- Helper `PapilioSPI::_endTransaction`: when the spi pointer is non-null,
ends the SPI transaction. -/
def _endTransaction (p : PapilioSPI) : List Event :=
  if p._spi then [Event.endTrans] else []

/-- Helper `PapilioSPI::_csLow`: drives the select pin LOW (asserted) and
waits one microsecond of setup time. -/
def _csLow (p : PapilioSPI) : List Event :=
  [Event.write p._cs false, Event.delayMicros 1]

/-- Helper `PapilioSPI::_csHigh`: waits one microsecond of hold time, then
drives the select pin HIGH (idle). -/
def _csHigh (p : PapilioSPI) : List Event :=
  [Event.delayMicros 1, Event.write p._cs true]

/-- Call sequence shared by every transfer method of the class:
`_beginTransaction(); _csLow(); <body>; _csHigh(); _endTransaction();`
applied to the events `mid` of the body. -/
def window (p : PapilioSPI) (mid : List Event) : List Event :=
  p._beginTransaction ++ p._csLow ++ mid ++ p._csHigh ++ p._endTransaction

/-- Method `PapilioSPI::transfer8`: if the handle is not initialized or the
spi pointer is null, return 0 with no hardware activity; otherwise exchange
one byte inside a transaction window.  Result: (returned value, device
state, hardware events). -/
def transfer8 {σ : Type} (d : SpiDevice σ) (p : PapilioSPI) (s : σ)
    (data : Nat) : Nat × σ × List Event :=
  if p._initialized = false ∨ p._spi = false then (0, s, [])
  else
    let t := data % 2 ^ 8
    let r := devXfer d s t
    (r.1, r.2, p.window [Event.exchange t r.1])

/-- Method `PapilioSPI::transfer16` (MSB first): guard as in `transfer8`,
then send the high byte `(data >> 8) & 0xFF` and the low byte `data & 0xFF`
in that order inside one window, and return `(high << 8) | low` reassembled
from the two received bytes. -/
def transfer16 {σ : Type} (d : SpiDevice σ) (p : PapilioSPI) (s : σ)
    (data : Nat) : Nat × σ × List Event :=
  if p._initialized = false ∨ p._spi = false then (0, s, [])
  else
    let w := data % 2 ^ 16
    let hi := devXfer d s ((w >>> 8) &&& 0xFF)
    let lo := devXfer d hi.2 (w &&& 0xFF)
    ((hi.1 <<< 8) ||| lo.1, lo.2,
      p.window [Event.exchange ((w >>> 8) &&& 0xFF) hi.1,
                Event.exchange (w &&& 0xFF) lo.1])

/-- Method `PapilioSPI::transfer32` (MSB first): guard as in `transfer8`,
then send bytes 3, 2, 1, 0 of `data` (big-endian order) inside one window
and return `(b3 << 24) | (b2 << 16) | (b1 << 8) | b0` reassembled from the
four received bytes. -/
def transfer32 {σ : Type} (d : SpiDevice σ) (p : PapilioSPI) (s : σ)
    (data : Nat) : Nat × σ × List Event :=
  if p._initialized = false ∨ p._spi = false then (0, s, [])
  else
    let w := data % 2 ^ 32
    let b3 := devXfer d s ((w >>> 24) &&& 0xFF)
    let b2 := devXfer d b3.2 ((w >>> 16) &&& 0xFF)
    let b1 := devXfer d b2.2 ((w >>> 8) &&& 0xFF)
    let b0 := devXfer d b1.2 (w &&& 0xFF)
    ((((b3.1 <<< 24) ||| (b2.1 <<< 16)) ||| (b1.1 <<< 8)) ||| b0.1, b0.2,
      p.window [Event.exchange ((w >>> 24) &&& 0xFF) b3.1,
                Event.exchange ((w >>> 16) &&& 0xFF) b2.1,
                Event.exchange ((w >>> 8) &&& 0xFF) b1.1,
                Event.exchange (w &&& 0xFF) b0.1])

/-- The byte chosen by `txBuf ? txBuf[i] : 0x00` in the burst loop: buffers
are memories `Nat → Nat` and `none` models a null pointer. -/
def txByteAt (tx : Option (Nat → Nat)) (i : Nat) : Nat :=
  match tx with
  | some f => f i % 2 ^ 8
  | none => 0

/-- The conditional store `if (rxBuf) rxBuf[i] = rxByte;` of the burst loop:
a null buffer stays null, otherwise index `i` is overwritten with `b`. -/
def rxStore (rx : Option (Nat → Nat)) (i : Nat) (b : Nat) :
    Option (Nat → Nat) :=
  match rx with
  | some g => some (fun j => if j = i then b else g j)
  | none => none

/-- Loop of `PapilioSPI::transferBurst`, for the remaining count `n` starting
at buffer index `i`: each step sends `txBuf[i]` (or 0x00 when `txBuf` is
null), and stores the received byte at index `i` of `rxBuf` when `rxBuf` is
non-null.  Result: (device state, final receive buffer, exchange events). -/
def burstLoop {σ : Type} (d : SpiDevice σ) (tx : Option (Nat → Nat)) :
    σ → Option (Nat → Nat) → Nat → Nat → σ × Option (Nat → Nat) × List Event
  | s, rx, _, 0 => (s, rx, [])
  | s, rx, i, n + 1 =>
    let t := txByteAt tx i
    let r := devXfer d s t
    let rest := burstLoop d tx r.2 (rxStore rx i r.1) (i + 1) n
    (rest.1, rest.2.1, Event.exchange t r.1 :: rest.2.2)

/-- Method `PapilioSPI::transferBurst`: if the handle is not initialized, the
spi pointer is null or `len` is 0, return with no activity and the receive
buffer untouched; otherwise exchange exactly `len` bytes inside one
transaction window. -/
def transferBurst {σ : Type} (d : SpiDevice σ) (p : PapilioSPI) (s : σ)
    (txBuf rxBuf : Option (Nat → Nat)) (len : Nat) :
    σ × Option (Nat → Nat) × List Event :=
  if p._initialized = false ∨ p._spi = false ∨ len = 0 then (s, rxBuf, [])
  else
    let body := burstLoop d txBuf s rxBuf 0 len
    (body.1, body.2.1, p.window body.2.2)

/-- Method `PapilioSPI::setBitWidth`: stores the width only when it is 8, 16
or 32; any other width is silently ignored. -/
def setBitWidth (p : PapilioSPI) (width : Nat) : PapilioSPI :=
  if width % 2 ^ 8 = 8 ∨ width % 2 ^ 8 = 16 ∨ width % 2 ^ 8 = 32 then
    { p with _bitWidth := width % 2 ^ 8 }
  else p

/-- Method `PapilioSPI::setSpeed`: stores the clock rate unconditionally. -/
def setSpeed (p : PapilioSPI) (hz : Nat) : PapilioSPI :=
  { p with _speed := hz % 2 ^ 32 }

/-- Method `PapilioSPI::setMode`: stores the mode only when it is at most
SPI_MODE3; larger values are silently ignored. -/
def setMode (p : PapilioSPI) (mode : Nat) : PapilioSPI :=
  if mode % 2 ^ 8 ≤ SPI_MODE3 then { p with _mode := mode % 2 ^ 8 } else p

/-- Method `PapilioSPI::rxAvailable`: placeholder that always returns 0. -/
def rxAvailable (_p : PapilioSPI) : Int := 0

/-- Method `PapilioSPI::txReady`: placeholder that always returns true. -/
def txReady (_p : PapilioSPI) : Bool := true

/-- Method `PapilioSPI::readFifo`: one `transfer8` with data 0x00. -/
def readFifo {σ : Type} (d : SpiDevice σ) (p : PapilioSPI) (s : σ) :
    Nat × σ × List Event :=
  transfer8 d p s 0x00

/-- Method `PapilioSPI::writeFifo`: one `transfer8` with the given byte, the
returned value discarded.  Result: (device state, hardware events). -/
def writeFifo {σ : Type} (d : SpiDevice σ) (p : PapilioSPI) (s : σ)
    (data : Nat) : σ × List Event :=
  ((transfer8 d p s data).2.1, (transfer8 d p s data).2.2)

/-- Method `PapilioSPI::isReady`: false when the handle is not initialized or
the spi pointer is null; otherwise performs one `transfer8` with the test
pattern 0xA5, ignores the response and optimistically returns true. -/
def isReady {σ : Type} (d : SpiDevice σ) (p : PapilioSPI) (s : σ) :
    Bool × σ × List Event :=
  if p._initialized = false ∨ p._spi = false then (false, s, [])
  else
    let r := transfer8 d p s 0xA5
    (true, r.2.1, r.2.2)

end PapilioSPI

/-- Bytes sent on the wire during a trace, in order. -/
def sentBytes : List Event → List Nat
  | [] => []
  | Event.exchange t _ :: es => t :: sentBytes es
  | _ :: es => sentBytes es

/-- Bytes received from the wire during a trace, in order. -/
def recvBytes : List Event → List Nat
  | [] => []
  | Event.exchange _ r :: es => r :: recvBytes es
  | _ :: es => recvBytes es

/-- Level of the select pin `cs` after running a trace, starting from level
`l` (`true` is HIGH, the idle level). -/
def csLevel (cs : Int) : Bool → List Event → Bool
  | l, [] => l
  | l, Event.write pin b :: es => csLevel cs (if pin = cs then b else l) es
  | l, _ :: es => csLevel cs l es

/-- MSB-first reassembly of a byte list into a word. -/
def msbAssemble (bs : List Nat) : Nat :=
  bs.foldl (fun a b => a * 2 ^ 8 + b) 0

/-- Pure loopback device: every exchange echoes the sent byte. -/
def echoDev : SpiDevice Unit :=
  ⟨fun _ t => (t, ())⟩

/-- A handle state that has been successfully initialized: spi non-null,
select pin 10, the constructor defaults otherwise. -/
def pReady : PapilioSPI :=
  ⟨true, 10, 1000000, SPI_MODE0, 8, true⟩

/-- Well-bracketed transfer trace for handle `p`: either empty, or the clock
settings are applied first, then the select pin goes LOW with a settle
delay, then nothing but byte exchanges happen, then after a settle delay the
select pin returns HIGH and the transaction ends. -/
def goodTrace (p : PapilioSPI) (tr : List Event) : Prop :=
  tr = [] ∨
    ∃ mid, (∀ e ∈ mid, ∃ t r, e = Event.exchange t r) ∧
      tr = Event.beginTrans p._speed MSBFIRST p._mode ::
        Event.write p._cs false :: Event.delayMicros 1 ::
        (mid ++ [Event.delayMicros 1, Event.write p._cs true, Event.endTrans])

/-- Disjoint bitwise or is addition: when the low `k` bits of the left
operand are clear and the right operand fits in `k` bits, `|||` adds. -/
theorem lor_eq_add_of_lt (a b k : Nat) (hb : b < 2 ^ k) :
    (a <<< k) ||| b = a <<< k + b := by
  apply Nat.eq_of_testBit_eq
  intro i
  have hrw : a <<< k + b = 2 ^ k * a + b := by rw [Nat.shiftLeft_eq, Nat.mul_comm]
  rw [Nat.testBit_lor, Nat.testBit_shiftLeft, hrw, Nat.testBit_mul_pow_two_add a hb i]
  by_cases h : i < k
  · have h2 : decide (i ≥ k) = false := by simp; omega
    simp [h, h2]
  · have h2 : decide (i ≥ k) = true := by simp; omega
    have hb2 : b.testBit i = false :=
      Nat.testBit_lt_two_pow
        (lt_of_lt_of_le hb (Nat.pow_le_pow_right (by norm_num) (by omega)))
    simp [h, h2, hb2]

/-- Reassembly of two bytes: `(b1 << 8) | b0` equals `b1 * 256 + b0` when
`b0` is a byte. -/
theorem assemble2 (b1 b0 : Nat) (h0 : b0 < 2 ^ 8) :
    (b1 <<< 8) ||| b0 = b1 * 2 ^ 8 + b0 := by
  rw [lor_eq_add_of_lt b1 b0 8 h0, Nat.shiftLeft_eq]

/-- Reassembly of four bytes: the big-endian or-of-shifts from `transfer32`
equals the base-256 MSB-first value. -/
theorem assemble4 (b3 b2 b1 b0 : Nat)
    (h2 : b2 < 2 ^ 8) (h1 : b1 < 2 ^ 8) (h0 : b0 < 2 ^ 8) :
    (((b3 <<< 24) ||| (b2 <<< 16)) ||| (b1 <<< 8)) ||| b0 =
      ((b3 * 2 ^ 8 + b2) * 2 ^ 8 + b1) * 2 ^ 8 + b0 := by
  have e32 : (b3 <<< 24) ||| (b2 <<< 16) = (b3 * 2 ^ 8 + b2) <<< 16 := by
    rw [lor_eq_add_of_lt b3 (b2 <<< 16) 24 (by rw [Nat.shiftLeft_eq]; omega)]
    rw [Nat.shiftLeft_eq, Nat.shiftLeft_eq, Nat.shiftLeft_eq]
    ring_nf
  have e321 : ((b3 * 2 ^ 8 + b2) <<< 16) ||| (b1 <<< 8) =
      ((b3 * 2 ^ 8 + b2) * 2 ^ 8 + b1) <<< 8 := by
    rw [lor_eq_add_of_lt _ (b1 <<< 8) 16 (by rw [Nat.shiftLeft_eq]; omega)]
    rw [Nat.shiftLeft_eq, Nat.shiftLeft_eq, Nat.shiftLeft_eq]
    ring_nf
  rw [e32, e321, lor_eq_add_of_lt _ b0 8 h0, Nat.shiftLeft_eq]

/-- Masking with 0xFF is reduction modulo 256. -/
theorem and_255_eq_mod (n : Nat) : n &&& 255 = n % 256 := by
  have h := Nat.and_pow_two_sub_one_eq_mod n 8
  norm_num at h
  exact h

/-- The received byte of a device exchange is a byte. -/
theorem devXfer_lt {σ : Type} (d : SpiDevice σ) (s : σ) (t : Nat) :
    (devXfer d s t).1 < 2 ^ 8 :=
  Nat.mod_lt _ (by norm_num)

/-- Helper: none of the four transfer operations reads the stored bit width,
so overwriting it changes nothing about their behaviour. -/
theorem transfers_ignore_bitWidth {σ : Type} (d : SpiDevice σ) (p : PapilioSPI)
    (w : Nat) (s : σ) (data : Nat) (tx rx : Option (Nat → Nat)) (len : Nat) :
    PapilioSPI.transfer8 d { p with _bitWidth := w } s data =
      PapilioSPI.transfer8 d p s data ∧
    PapilioSPI.transfer16 d { p with _bitWidth := w } s data =
      PapilioSPI.transfer16 d p s data ∧
    PapilioSPI.transfer32 d { p with _bitWidth := w } s data =
      PapilioSPI.transfer32 d p s data ∧
    PapilioSPI.transferBurst d { p with _bitWidth := w } s tx rx len =
      PapilioSPI.transferBurst d p s tx rx len := by
  refine ⟨?_, ?_, ?_, ?_⟩ <;>
    simp [PapilioSPI.transfer8, PapilioSPI.transfer16, PapilioSPI.transfer32,
      PapilioSPI.transferBurst, PapilioSPI.window, PapilioSPI._beginTransaction,
      PapilioSPI._csLow, PapilioSPI._csHigh, PapilioSPI._endTransaction]

/-- C2: a transfer issued against a never-initialized or ended link handle
returns the zero value, leaves the device state and receive buffer
untouched, and performs no hardware activity at all (empty event trace). -/
theorem C2_uninitialized_silent_zero {σ : Type} (d : SpiDevice σ)
    (p : PapilioSPI) (s : σ) (data : Nat) (tx rx : Option (Nat → Nat))
    (len : Nat) (h : p._initialized = false) :
    PapilioSPI.transfer8 d p s data = (0, s, []) ∧
    PapilioSPI.transfer16 d p s data = (0, s, []) ∧
    PapilioSPI.transfer32 d p s data = (0, s, []) ∧
    PapilioSPI.transferBurst d p s tx rx len = (s, rx, []) := by
  refine ⟨?_, ?_, ?_, ?_⟩ <;>
    simp [PapilioSPI.transfer8, PapilioSPI.transfer16, PapilioSPI.transfer32,
      PapilioSPI.transferBurst, h]

/-- Witness for C2 at the freshly constructed (never initialized) handle. -/
theorem C2_witness :
    PapilioSPI.ctor._initialized = false ∧
    (PapilioSPI.transfer8 echoDev PapilioSPI.ctor () 7 = (0, (), []) ∧
     PapilioSPI.transfer16 echoDev PapilioSPI.ctor () 7 = (0, (), []) ∧
     PapilioSPI.transfer32 echoDev PapilioSPI.ctor () 7 = (0, (), []) ∧
     PapilioSPI.transferBurst echoDev PapilioSPI.ctor () none none 3 =
       ((), none, [])) :=
  ⟨rfl, C2_uninitialized_silent_zero echoDev PapilioSPI.ctor () 7 none none 3 rfl⟩

/-- C5: a burst of length zero is a complete no-op — the receive buffer and
the device state are returned untouched and no event happens, so in
particular no transaction window is opened and the select line is never
driven. -/
theorem C5_burst_len_zero_noop {σ : Type} (d : SpiDevice σ) (p : PapilioSPI)
    (s : σ) (tx rx : Option (Nat → Nat)) :
    PapilioSPI.transferBurst d p s tx rx 0 = (s, rx, []) := by
  simp [PapilioSPI.transferBurst]

/-- C6: widths other than 8, 16, 32 and modes above SPI_MODE3 are silently
ignored leaving the whole configuration intact, while supported widths and
modes are stored, changing only that one field. -/
theorem C6_invalid_config_ignored (p : PapilioSPI) (w m : Nat)
    (hw : w < 2 ^ 8) (hm : m < 2 ^ 8) :
    (w ≠ 8 ∧ w ≠ 16 ∧ w ≠ 32 → PapilioSPI.setBitWidth p w = p) ∧
    (w = 8 ∨ w = 16 ∨ w = 32 →
      PapilioSPI.setBitWidth p w = { p with _bitWidth := w }) ∧
    (SPI_MODE3 < m → PapilioSPI.setMode p m = p) ∧
    (m ≤ SPI_MODE3 → PapilioSPI.setMode p m = { p with _mode := m }) := by
  have hw2 : w % 2 ^ 8 = w := Nat.mod_eq_of_lt hw
  have hm2 : m % 2 ^ 8 = m := Nat.mod_eq_of_lt hm
  refine ⟨?_, ?_, ?_, ?_⟩
  · rintro ⟨h1, h2, h3⟩
    unfold PapilioSPI.setBitWidth
    rw [hw2, if_neg (by simp [h1, h2, h3])]
  · rintro (h | h | h) <;> subst h <;> simp [PapilioSPI.setBitWidth]
  · intro h
    unfold PapilioSPI.setMode
    rw [hm2, if_neg (by simp only [SPI_MODE3] at h ⊢; omega)]
  · intro h
    unfold PapilioSPI.setMode
    rw [hm2, if_pos h]

/-- Witness for C6 at width 9 (unsupported) and mode 4 (out of range). -/
theorem C6_witness :
    ((9 : Nat) < 2 ^ 8 ∧ (4 : Nat) < 2 ^ 8) ∧
    (((9 : Nat) ≠ 8 ∧ (9 : Nat) ≠ 16 ∧ (9 : Nat) ≠ 32 →
        PapilioSPI.setBitWidth pReady 9 = pReady) ∧
     ((9 : Nat) = 8 ∨ (9 : Nat) = 16 ∨ (9 : Nat) = 32 →
        PapilioSPI.setBitWidth pReady 9 = { pReady with _bitWidth := 9 }) ∧
     (SPI_MODE3 < 4 → PapilioSPI.setMode pReady 4 = pReady) ∧
     ((4 : Nat) ≤ SPI_MODE3 → PapilioSPI.setMode pReady 4 = { pReady with _mode := 4 })) :=
  ⟨⟨by decide, by decide⟩,
    C6_invalid_config_ignored pReady 9 4 (by decide) (by decide)⟩

/-- C7 counterexample: isReady does not return one single fixed value over
all handle states — it is false on the never-initialized handle and true on
an initialized one (with the same loopback device and response). -/
theorem C7_counterexample :
    (PapilioSPI.isReady echoDev PapilioSPI.ctor ()).1 = false ∧
    (PapilioSPI.isReady echoDev pReady ()).1 = true := by
  exact ⟨by decide, by decide⟩

/-- C7 amended: rxAvailable always returns 0 and txReady always returns
true; isReady returns true exactly when the handle passes the
initialization guard, and its result never depends on the device or on any
byte the peripheral answers. -/
theorem C7_status_probes_fixed {σ τ : Type} (d : SpiDevice σ) (d2 : SpiDevice τ)
    (p : PapilioSPI) (s : σ) (s2 : τ) :
    PapilioSPI.rxAvailable p = 0 ∧
    PapilioSPI.txReady p = true ∧
    (PapilioSPI.isReady d p s).1 = (p._initialized && p._spi) ∧
    (PapilioSPI.isReady d p s).1 = (PapilioSPI.isReady d2 p s2).1 := by
  refine ⟨rfl, rfl, ?_, ?_⟩ <;>
    cases h1 : p._initialized <;> cases h2 : p._spi <;>
      simp [PapilioSPI.isReady, h1, h2]

/-- C8: begin stores the arguments, returns true for every combination of
them, and leaves the handle in the initialized state with the select pin
configured as an output driving HIGH (idle). -/
theorem C8_begin_always_succeeds (hs : Bool) (cs : Int) (sp m : Nat) :
    (PapilioSPI.begin hs cs sp m).1 = true ∧
    (PapilioSPI.begin hs cs sp m).2.1._initialized = true ∧
    (PapilioSPI.begin hs cs sp m).2.2 =
      [Event.pinModeOutput cs, Event.write cs true] :=
  ⟨rfl, rfl, rfl⟩

/-- C9: the stored default word width is unobservable through every transfer
operation — overwriting it with any value, directly or through setBitWidth,
changes neither the returned value, the device state, nor the emitted
hardware events. -/
theorem C9_bitWidth_noninterference {σ : Type} (d : SpiDevice σ)
    (p : PapilioSPI) (w : Nat) (s : σ) (data : Nat)
    (tx rx : Option (Nat → Nat)) (len : Nat) :
    (PapilioSPI.transfer8 d { p with _bitWidth := w } s data =
       PapilioSPI.transfer8 d p s data ∧
     PapilioSPI.transfer16 d { p with _bitWidth := w } s data =
       PapilioSPI.transfer16 d p s data ∧
     PapilioSPI.transfer32 d { p with _bitWidth := w } s data =
       PapilioSPI.transfer32 d p s data ∧
     PapilioSPI.transferBurst d { p with _bitWidth := w } s tx rx len =
       PapilioSPI.transferBurst d p s tx rx len) ∧
    (PapilioSPI.transfer8 d (PapilioSPI.setBitWidth p w) s data =
       PapilioSPI.transfer8 d p s data ∧
     PapilioSPI.transferBurst d (PapilioSPI.setBitWidth p w) s tx rx len =
       PapilioSPI.transferBurst d p s tx rx len) := by
  refine ⟨transfers_ignore_bitWidth d p w s data tx rx len, ?_, ?_⟩
  · by_cases h : w % 2 ^ 8 = 8 ∨ w % 2 ^ 8 = 16 ∨ w % 2 ^ 8 = 32
    · rw [PapilioSPI.setBitWidth, if_pos h]
      exact (transfers_ignore_bitWidth d p (w % 2 ^ 8) s data tx rx len).1
    · rw [PapilioSPI.setBitWidth, if_neg h]
  · by_cases h : w % 2 ^ 8 = 8 ∨ w % 2 ^ 8 = 16 ∨ w % 2 ^ 8 = 32
    · rw [PapilioSPI.setBitWidth, if_pos h]
      exact (transfers_ignore_bitWidth d p (w % 2 ^ 8) s data tx rx len).2.2.2
    · rw [PapilioSPI.setBitWidth, if_neg h]

/-- C10: readFifo is exactly transfer8 of the byte 0x00, and writeFifo of a
byte is exactly transfer8 of that byte with the returned value discarded —
identical device state and identical hardware events. -/
theorem C10_fifo_ops_delegate {σ : Type} (d : SpiDevice σ) (p : PapilioSPI)
    (s : σ) (data : Nat) :
    PapilioSPI.readFifo d p s = PapilioSPI.transfer8 d p s 0 ∧
    PapilioSPI.writeFifo d p s data =
      ((PapilioSPI.transfer8 d p s data).2.1,
       (PapilioSPI.transfer8 d p s data).2.2) :=
  ⟨rfl, rfl⟩


/-- Helper: the burst loop emits nothing but byte-exchange events. -/
theorem burstLoop_events_exchanges {σ : Type} (d : SpiDevice σ)
    (tx : Option (Nat → Nat)) :
    ∀ (n : Nat) (s : σ) (rx : Option (Nat → Nat)) (i : Nat),
      ∀ e ∈ (PapilioSPI.burstLoop d tx s rx i n).2.2,
        ∃ t r, e = Event.exchange t r := by
  intro n
  induction n with
  | zero =>
    intro s rx i e he
    simp [PapilioSPI.burstLoop] at he
  | succ n ih =>
    intro s rx i e he
    simp only [PapilioSPI.burstLoop, List.mem_cons] at he
    rcases he with he | he
    · exact ⟨_, _, he⟩
    · exact ih _ _ _ e he

/-- Helper: the select-line level after a concatenated trace. -/
theorem csLevel_append (cs : Int) (l : Bool) (t1 t2 : List Event) :
    csLevel cs l (t1 ++ t2) = csLevel cs (csLevel cs l t1) t2 := by
  induction t1 generalizing l with
  | nil => rfl
  | cons e es ih => cases e <;> simp [csLevel, ih]

/-- Helper: a trace of pure byte exchanges never moves the select line. -/
theorem csLevel_exchanges (cs : Int) (l : Bool) (mid : List Event)
    (h : ∀ e ∈ mid, ∃ t r, e = Event.exchange t r) :
    csLevel cs l mid = l := by
  induction mid generalizing l with
  | nil => rfl
  | cons e es ih =>
    obtain ⟨t, r, he⟩ := h e (by simp)
    subst he
    simp only [csLevel]
    exact ih l (fun e2 he2 => h e2 (List.mem_cons_of_mem _ he2))

/-- Helper: a well-bracketed trace always leaves the select line HIGH. -/
theorem goodTrace_csLevel (p : PapilioSPI) (tr : List Event)
    (h : goodTrace p tr) : csLevel p._cs true tr = true := by
  rcases h with h | ⟨mid, hmid, h⟩
  · rw [h]; rfl
  · subst h
    have hm : ∀ l, csLevel p._cs l mid = l :=
      fun l => csLevel_exchanges p._cs l mid hmid
    simp [csLevel, csLevel_append, hm]

/-- Helper: with a non-null spi pointer, the shared transaction wrapper
around pure byte exchanges yields a well-bracketed trace. -/
theorem goodTrace_window (p : PapilioSPI) (hspi : p._spi = true)
    (mid : List Event) (hmid : ∀ e ∈ mid, ∃ t r, e = Event.exchange t r) :
    goodTrace p (p.window mid) := by
  right
  refine ⟨mid, hmid, ?_⟩
  simp [PapilioSPI.window, PapilioSPI._beginTransaction, PapilioSPI._csLow,
    PapilioSPI._csHigh, PapilioSPI._endTransaction, hspi]

/-- Helper: transfer8 produces a well-bracketed trace. -/
theorem goodTrace_transfer8 {σ : Type} (d : SpiDevice σ) (p : PapilioSPI)
    (s : σ) (data : Nat) :
    goodTrace p (PapilioSPI.transfer8 d p s data).2.2 := by
  by_cases h : p._initialized = false ∨ p._spi = false
  · left
    simp [PapilioSPI.transfer8, h]
  · have hspi : p._spi = true := by
      simp only [not_or] at h
      simpa using h.2
    simp only [PapilioSPI.transfer8, if_neg h]
    exact goodTrace_window p hspi _
      (by intro e he; simp at he; exact ⟨_, _, he⟩)

/-- Helper: transfer16 produces a well-bracketed trace. -/
theorem goodTrace_transfer16 {σ : Type} (d : SpiDevice σ) (p : PapilioSPI)
    (s : σ) (data : Nat) :
    goodTrace p (PapilioSPI.transfer16 d p s data).2.2 := by
  by_cases h : p._initialized = false ∨ p._spi = false
  · left
    simp [PapilioSPI.transfer16, h]
  · have hspi : p._spi = true := by
      simp only [not_or] at h
      simpa using h.2
    simp only [PapilioSPI.transfer16, if_neg h]
    exact goodTrace_window p hspi _
      (by intro e he; simp at he; rcases he with he | he <;> exact ⟨_, _, he⟩)

/-- Helper: transfer32 produces a well-bracketed trace. -/
theorem goodTrace_transfer32 {σ : Type} (d : SpiDevice σ) (p : PapilioSPI)
    (s : σ) (data : Nat) :
    goodTrace p (PapilioSPI.transfer32 d p s data).2.2 := by
  by_cases h : p._initialized = false ∨ p._spi = false
  · left
    simp [PapilioSPI.transfer32, h]
  · have hspi : p._spi = true := by
      simp only [not_or] at h
      simpa using h.2
    simp only [PapilioSPI.transfer32, if_neg h]
    exact goodTrace_window p hspi _
      (by intro e he; simp at he
          rcases he with he | he | he | he <;> exact ⟨_, _, he⟩)

/-- Helper: transferBurst produces a well-bracketed trace. -/
theorem goodTrace_transferBurst {σ : Type} (d : SpiDevice σ) (p : PapilioSPI)
    (s : σ) (tx rx : Option (Nat → Nat)) (len : Nat) :
    goodTrace p (PapilioSPI.transferBurst d p s tx rx len).2.2 := by
  by_cases h : p._initialized = false ∨ p._spi = false ∨ len = 0
  · left
    simp [PapilioSPI.transferBurst, h]
  · have hspi : p._spi = true := by
      simp only [not_or] at h
      simpa using h.2.1
    simp only [PapilioSPI.transferBurst, if_neg h]
    exact goodTrace_window p hspi _
      (burstLoop_events_exchanges d tx len s rx 0)

/-- C3: every transfer operation that asserts the select line applies the
clock settings first, then drives the line low, exchanges only bytes inside
the window, and drives it high again before returning; consequently the
select line is back at its idle HIGH level after every operation. -/
theorem C3_select_line_discipline {σ : Type} (d : SpiDevice σ)
    (p : PapilioSPI) (s : σ) (data : Nat) (tx rx : Option (Nat → Nat))
    (len : Nat) :
    (goodTrace p (PapilioSPI.transfer8 d p s data).2.2 ∧
      csLevel p._cs true (PapilioSPI.transfer8 d p s data).2.2 = true) ∧
    (goodTrace p (PapilioSPI.transfer16 d p s data).2.2 ∧
      csLevel p._cs true (PapilioSPI.transfer16 d p s data).2.2 = true) ∧
    (goodTrace p (PapilioSPI.transfer32 d p s data).2.2 ∧
      csLevel p._cs true (PapilioSPI.transfer32 d p s data).2.2 = true) ∧
    (goodTrace p (PapilioSPI.transferBurst d p s tx rx len).2.2 ∧
      csLevel p._cs true (PapilioSPI.transferBurst d p s tx rx len).2.2 = true) :=
  ⟨⟨goodTrace_transfer8 d p s data,
      goodTrace_csLevel _ _ (goodTrace_transfer8 d p s data)⟩,
   ⟨goodTrace_transfer16 d p s data,
      goodTrace_csLevel _ _ (goodTrace_transfer16 d p s data)⟩,
   ⟨goodTrace_transfer32 d p s data,
      goodTrace_csLevel _ _ (goodTrace_transfer32 d p s data)⟩,
   ⟨goodTrace_transferBurst d p s tx rx len,
      goodTrace_csLevel _ _ (goodTrace_transferBurst d p s tx rx len)⟩⟩

/-- Helper: the four bytes transfer32 sends on the wire are the bytes of the
argument, most significant first. -/
theorem transfer32_sentBytes {σ : Type} (d : SpiDevice σ) (p : PapilioSPI)
    (s : σ) (v : Nat) (hinit : p._initialized = true) (hspi : p._spi = true)
    (hv : v < 2 ^ 32) :
    sentBytes (PapilioSPI.transfer32 d p s v).2.2 =
      [v / 2 ^ 24 % 2 ^ 8, v / 2 ^ 16 % 2 ^ 8, v / 2 ^ 8 % 2 ^ 8, v % 2 ^ 8] := by
  have hng : ¬(p._initialized = false ∨ p._spi = false) := by
    simp [hinit, hspi]
  simp [PapilioSPI.transfer32, hinit, hspi, PapilioSPI.window,
    PapilioSPI._beginTransaction, PapilioSPI._csLow, PapilioSPI._csHigh,
    PapilioSPI._endTransaction, sentBytes, Nat.shiftRight_eq_div_pow,
    and_255_eq_mod]
  omega

/-- Helper: the or-of-shifts reassembly of four bytes is the MSB-first
base-256 value of the received list. -/
theorem msb4 (x3 x2 x1 x0 : Nat) (h2 : x2 < 2 ^ 8) (h1 : x1 < 2 ^ 8)
    (h0 : x0 < 2 ^ 8) :
    (((x3 <<< 24) ||| (x2 <<< 16)) ||| (x1 <<< 8)) ||| x0 =
      msbAssemble [x3, x2, x1, x0] := by
  rw [assemble4 x3 x2 x1 x0 h2 h1 h0]
  simp [msbAssemble]

/-- Helper: the or-of-shifts reassembly of two bytes is the MSB-first
base-256 value of the received list. -/
theorem msb2 (x1 x0 : Nat) (h0 : x0 < 2 ^ 8) :
    (x1 <<< 8) ||| x0 = msbAssemble [x1, x0] := by
  rw [assemble2 x1 x0 h0]
  simp [msbAssemble]

/-- Helper: transfer32 receives exactly four bytes and returns them
reassembled most-significant-byte first. -/
theorem transfer32_result {σ : Type} (d : SpiDevice σ) (p : PapilioSPI)
    (s : σ) (v : Nat) (hinit : p._initialized = true) (hspi : p._spi = true) :
    (recvBytes (PapilioSPI.transfer32 d p s v).2.2).length = 4 ∧
    (PapilioSPI.transfer32 d p s v).1 =
      msbAssemble (recvBytes (PapilioSPI.transfer32 d p s v).2.2) := by
  constructor
  · simp [PapilioSPI.transfer32, hinit, hspi, PapilioSPI.window,
      PapilioSPI._beginTransaction, PapilioSPI._csLow, PapilioSPI._csHigh,
      PapilioSPI._endTransaction, recvBytes]
  · simp [PapilioSPI.transfer32, hinit, hspi, PapilioSPI.window,
      PapilioSPI._beginTransaction, PapilioSPI._csLow, PapilioSPI._csHigh,
      PapilioSPI._endTransaction, recvBytes]
    exact msb4 _ _ _ _ (devXfer_lt d _ _) (devXfer_lt d _ _) (devXfer_lt d _ _)

/-- Helper: transfer16 receives exactly two bytes and returns them
reassembled most-significant-byte first. -/
theorem transfer16_result {σ : Type} (d : SpiDevice σ) (p : PapilioSPI)
    (s : σ) (v : Nat) (hinit : p._initialized = true) (hspi : p._spi = true) :
    (recvBytes (PapilioSPI.transfer16 d p s v).2.2).length = 2 ∧
    (PapilioSPI.transfer16 d p s v).1 =
      msbAssemble (recvBytes (PapilioSPI.transfer16 d p s v).2.2) := by
  constructor
  · simp [PapilioSPI.transfer16, hinit, hspi, PapilioSPI.window,
      PapilioSPI._beginTransaction, PapilioSPI._csLow, PapilioSPI._csHigh,
      PapilioSPI._endTransaction, recvBytes]
  · simp [PapilioSPI.transfer16, hinit, hspi, PapilioSPI.window,
      PapilioSPI._beginTransaction, PapilioSPI._csLow, PapilioSPI._csHigh,
      PapilioSPI._endTransaction, recvBytes]
    exact msb2 _ _ (devXfer_lt d _ _)

/-- Helper: the bytes the loopback device hands back to transfer32 are the
argument bytes, most significant first. -/
theorem transfer32_recvBytes_echo (p : PapilioSPI) (v : Nat)
    (hinit : p._initialized = true) (hspi : p._spi = true) (hv : v < 2 ^ 32) :
    recvBytes (PapilioSPI.transfer32 echoDev p () v).2.2 =
      [v / 2 ^ 24 % 2 ^ 8, v / 2 ^ 16 % 2 ^ 8, v / 2 ^ 8 % 2 ^ 8, v % 2 ^ 8] := by
  simp [PapilioSPI.transfer32, hinit, hspi, PapilioSPI.window,
    PapilioSPI._beginTransaction, PapilioSPI._csLow, PapilioSPI._csHigh,
    PapilioSPI._endTransaction, recvBytes, devXfer, echoDev,
    Nat.shiftRight_eq_div_pow, and_255_eq_mod]
  omega

/-- Helper: the bytes the loopback device hands back to transfer16 are the
argument bytes, most significant first. -/
theorem transfer16_recvBytes_echo (p : PapilioSPI) (w : Nat)
    (hinit : p._initialized = true) (hspi : p._spi = true) (hw : w < 2 ^ 16) :
    recvBytes (PapilioSPI.transfer16 echoDev p () w).2.2 =
      [w / 2 ^ 8 % 2 ^ 8, w % 2 ^ 8] := by
  simp [PapilioSPI.transfer16, hinit, hspi, PapilioSPI.window,
    PapilioSPI._beginTransaction, PapilioSPI._csLow, PapilioSPI._csHigh,
    PapilioSPI._endTransaction, recvBytes, devXfer, echoDev,
    Nat.shiftRight_eq_div_pow, and_255_eq_mod]
  omega

/-- Helper: under the loopback device transfer32 returns its argument. -/
theorem transfer32_echo (p : PapilioSPI) (v : Nat)
    (hinit : p._initialized = true) (hspi : p._spi = true) (hv : v < 2 ^ 32) :
    (PapilioSPI.transfer32 echoDev p () v).1 = v := by
  rw [(transfer32_result echoDev p () v hinit hspi).2,
    transfer32_recvBytes_echo p v hinit hspi hv]
  simp [msbAssemble]
  omega

/-- Helper: under the loopback device transfer16 returns its argument. -/
theorem transfer16_echo (p : PapilioSPI) (w : Nat)
    (hinit : p._initialized = true) (hspi : p._spi = true) (hw : w < 2 ^ 16) :
    (PapilioSPI.transfer16 echoDev p () w).1 = w := by
  rw [(transfer16_result echoDev p () w hinit hspi).2,
    transfer16_recvBytes_echo p w hinit hspi hw]
  simp [msbAssemble]
  omega

/-- C1: on an initialized link, transfer32 sends exactly four bytes inside
one well-bracketed transaction window, most significant first, and returns
the four received bytes reassembled in the same order; under a loopback
device transfer32 and transfer16 therefore return their argument. -/
theorem C1_transfer32_msb_first (p : PapilioSPI) (v : Nat)
    (hinit : p._initialized = true) (hspi : p._spi = true) (hv : v < 2 ^ 32) :
    (∀ (σ : Type) (d : SpiDevice σ) (s : σ),
      sentBytes (PapilioSPI.transfer32 d p s v).2.2 =
        [v / 2 ^ 24 % 2 ^ 8, v / 2 ^ 16 % 2 ^ 8, v / 2 ^ 8 % 2 ^ 8, v % 2 ^ 8] ∧
      (recvBytes (PapilioSPI.transfer32 d p s v).2.2).length = 4 ∧
      goodTrace p (PapilioSPI.transfer32 d p s v).2.2 ∧
      (PapilioSPI.transfer32 d p s v).1 =
        msbAssemble (recvBytes (PapilioSPI.transfer32 d p s v).2.2)) ∧
    (PapilioSPI.transfer32 echoDev p () v).1 = v ∧
    (∀ w, w < 2 ^ 16 → (PapilioSPI.transfer16 echoDev p () w).1 = w) :=
  ⟨fun _ d s => ⟨transfer32_sentBytes d p s v hinit hspi hv,
      (transfer32_result d p s v hinit hspi).1,
      goodTrace_transfer32 d p s v,
      (transfer32_result d p s v hinit hspi).2⟩,
   transfer32_echo p v hinit hspi hv,
   fun w hw => transfer16_echo p w hinit hspi hw⟩

/-- Witness for C1 at an initialized handle and the value 0x12345678. -/
theorem C1_witness :
    (pReady._initialized = true ∧ pReady._spi = true ∧
      (305419896 : Nat) < 2 ^ 32) ∧
    ((∀ (σ : Type) (d : SpiDevice σ) (s : σ),
      sentBytes (PapilioSPI.transfer32 d pReady s 305419896).2.2 =
        [305419896 / 2 ^ 24 % 2 ^ 8, 305419896 / 2 ^ 16 % 2 ^ 8,
         305419896 / 2 ^ 8 % 2 ^ 8, 305419896 % 2 ^ 8] ∧
      (recvBytes (PapilioSPI.transfer32 d pReady s 305419896).2.2).length = 4 ∧
      goodTrace pReady (PapilioSPI.transfer32 d pReady s 305419896).2.2 ∧
      (PapilioSPI.transfer32 d pReady s 305419896).1 =
        msbAssemble (recvBytes (PapilioSPI.transfer32 d pReady s 305419896).2.2)) ∧
    (PapilioSPI.transfer32 echoDev pReady () 305419896).1 = 305419896 ∧
    (∀ w, w < 2 ^ 16 → (PapilioSPI.transfer16 echoDev pReady () w).1 = w)) :=
  ⟨⟨rfl, rfl, by norm_num⟩,
    C1_transfer32_msb_first pReady 305419896 rfl rfl (by norm_num)⟩

/-- Helper: sent bytes distribute over trace concatenation. -/
theorem sentBytes_append (t1 t2 : List Event) :
    sentBytes (t1 ++ t2) = sentBytes t1 ++ sentBytes t2 := by
  induction t1 with
  | nil => rfl
  | cons e es ih => cases e <;> simp [sentBytes, ih]

/-- Helper: received bytes distribute over trace concatenation. -/
theorem recvBytes_append (t1 t2 : List Event) :
    recvBytes (t1 ++ t2) = recvBytes t1 ++ recvBytes t2 := by
  induction t1 with
  | nil => rfl
  | cons e es ih => cases e <;> simp [recvBytes, ih]

/-- Helper: only the body of a transaction window carries sent bytes. -/
theorem sentBytes_window (p : PapilioSPI) (mid : List Event) :
    sentBytes (p.window mid) = sentBytes mid := by
  cases h : p._spi <;>
    simp [PapilioSPI.window, PapilioSPI._beginTransaction, PapilioSPI._csLow,
      PapilioSPI._csHigh, PapilioSPI._endTransaction, h, sentBytes_append,
      sentBytes]

/-- Helper: only the body of a transaction window carries received bytes. -/
theorem recvBytes_window (p : PapilioSPI) (mid : List Event) :
    recvBytes (p.window mid) = recvBytes mid := by
  cases h : p._spi <;>
    simp [PapilioSPI.window, PapilioSPI._beginTransaction, PapilioSPI._csLow,
      PapilioSPI._csHigh, PapilioSPI._endTransaction, h, recvBytes_append,
      recvBytes]

/-- Helper: the burst loop for count `n` exchanges exactly `n` bytes. -/
theorem burstLoop_lengths {σ : Type} (d : SpiDevice σ)
    (tx : Option (Nat → Nat)) :
    ∀ (n : Nat) (s : σ) (rx : Option (Nat → Nat)) (i : Nat),
      (sentBytes (PapilioSPI.burstLoop d tx s rx i n).2.2).length = n ∧
      (recvBytes (PapilioSPI.burstLoop d tx s rx i n).2.2).length = n := by
  intro n
  induction n with
  | zero =>
    intro s rx i
    simp [PapilioSPI.burstLoop, sentBytes, recvBytes]
  | succ n ih =>
    intro s rx i
    simp [PapilioSPI.burstLoop, sentBytes, recvBytes, ih]

/-- Helper: with a null send buffer the burst loop sends only 0x00 bytes. -/
theorem burstLoop_sent_none {σ : Type} (d : SpiDevice σ) :
    ∀ (n : Nat) (s : σ) (rx : Option (Nat → Nat)) (i : Nat),
      sentBytes (PapilioSPI.burstLoop d none s rx i n).2.2 =
        List.replicate n 0 := by
  intro n
  induction n with
  | zero =>
    intro s rx i
    simp [PapilioSPI.burstLoop, sentBytes]
  | succ n ih =>
    intro s rx i
    simp [PapilioSPI.burstLoop, sentBytes, ih, PapilioSPI.txByteAt, List.replicate]

/-- Helper: a null receive buffer stays null through the burst loop. -/
theorem burstLoop_rx_none {σ : Type} (d : SpiDevice σ)
    (tx : Option (Nat → Nat)) :
    ∀ (n : Nat) (s : σ) (i : Nat),
      (PapilioSPI.burstLoop d tx s none i n).2.1 = none := by
  intro n
  induction n with
  | zero =>
    intro s i
    simp [PapilioSPI.burstLoop]
  | succ n ih =>
    intro s i
    simp [PapilioSPI.burstLoop, PapilioSPI.rxStore, ih]

/-- Helper: the burst loop writes the received bytes into positions
`i .. i+n-1` of a non-null receive buffer and touches nothing else. -/
theorem burstLoop_rx_some {σ : Type} (d : SpiDevice σ)
    (tx : Option (Nat → Nat)) :
    ∀ (n : Nat) (s : σ) (g : Nat → Nat) (i : Nat),
      ∃ g2, (PapilioSPI.burstLoop d tx s (some g) i n).2.1 = some g2 ∧
        (∀ j, j < i → g2 j = g j) ∧
        (∀ j, i + n ≤ j → g2 j = g j) ∧
        (∀ k, k < n → g2 (i + k) =
          (recvBytes (PapilioSPI.burstLoop d tx s (some g) i n).2.2).getD k 0) := by
  intro n
  induction n with
  | zero =>
    intro s g i
    exact ⟨g, by simp [PapilioSPI.burstLoop], fun j _ => rfl, fun j _ => rfl,
      fun k hk => absurd hk (Nat.not_lt_zero k)⟩
  | succ n ih =>
    intro s g i
    obtain ⟨g2, hg2, hlow, hhigh, hvals⟩ :=
      ih (devXfer d s (PapilioSPI.txByteAt tx i)).2
        (fun j => if j = i then (devXfer d s (PapilioSPI.txByteAt tx i)).1 else g j)
        (i + 1)
    refine ⟨g2, ?_, ?_, ?_, ?_⟩
    · simp only [PapilioSPI.burstLoop, PapilioSPI.rxStore]
      exact hg2
    · intro j hj
      rw [hlow j (by omega)]
      simp [show j ≠ i by omega]
    · intro j hj
      rw [hhigh j (by omega)]
      simp [show j ≠ i by omega]
    · intro k hk
      rcases k with _ | k
      · rw [Nat.add_zero, hlow i (by omega)]
        simp only [PapilioSPI.burstLoop, PapilioSPI.rxStore]
        simp [recvBytes]
      · have e : i + (k + 1) = (i + 1) + k := by omega
        rw [e, hvals k (by omega)]
        simp only [PapilioSPI.burstLoop, PapilioSPI.rxStore]
        simp [recvBytes]

/-- C4: on an initialized link a burst of positive length exchanges exactly
`len` bytes inside one well-bracketed transaction window; a null send buffer
sends 0x00 at every position, a null receive buffer stays null so nothing is
written, and a non-null receive buffer receives exactly the `len` received
bytes at positions 0 .. len−1 while every other position is untouched. -/
theorem C4_burst_buffers {σ : Type} (d : SpiDevice σ) (p : PapilioSPI)
    (s : σ) (tx rx : Option (Nat → Nat)) (len : Nat)
    (hinit : p._initialized = true) (hspi : p._spi = true) (hlen : 0 < len) :
    goodTrace p (PapilioSPI.transferBurst d p s tx rx len).2.2 ∧
    (sentBytes (PapilioSPI.transferBurst d p s tx rx len).2.2).length = len ∧
    (recvBytes (PapilioSPI.transferBurst d p s tx rx len).2.2).length = len ∧
    (tx = none →
      sentBytes (PapilioSPI.transferBurst d p s tx rx len).2.2 =
        List.replicate len 0) ∧
    (rx = none → (PapilioSPI.transferBurst d p s tx rx len).2.1 = none) ∧
    (∀ g, rx = some g → ∃ g2,
      (PapilioSPI.transferBurst d p s tx rx len).2.1 = some g2 ∧
      (∀ k, k < len → g2 k =
        (recvBytes (PapilioSPI.transferBurst d p s tx rx len).2.2).getD k 0) ∧
      (∀ j, len ≤ j → g2 j = g j)) := by
  have hlen2 : len ≠ 0 := by omega
  have htr : (PapilioSPI.transferBurst d p s tx rx len).2.2 =
      p.window (PapilioSPI.burstLoop d tx s rx 0 len).2.2 := by
    simp [PapilioSPI.transferBurst, hinit, hspi, hlen2]
  have hrx : (PapilioSPI.transferBurst d p s tx rx len).2.1 =
      (PapilioSPI.burstLoop d tx s rx 0 len).2.1 := by
    simp [PapilioSPI.transferBurst, hinit, hspi, hlen2]
  refine ⟨goodTrace_transferBurst d p s tx rx len, ?_, ?_, ?_, ?_, ?_⟩
  · rw [htr, sentBytes_window]
    exact (burstLoop_lengths d tx len s rx 0).1
  · rw [htr, recvBytes_window]
    exact (burstLoop_lengths d tx len s rx 0).2
  · intro h
    subst h
    rw [htr, sentBytes_window]
    exact burstLoop_sent_none d len s rx 0
  · intro h
    subst h
    rw [hrx]
    exact burstLoop_rx_none d tx len s 0
  · intro g hg
    subst hg
    obtain ⟨g2, h1, _, h3, h4⟩ := burstLoop_rx_some d tx len s g 0
    refine ⟨g2, by rw [hrx]; exact h1, ?_, ?_⟩
    · intro k hk
      rw [htr, recvBytes_window]
      simpa using h4 k hk
    · intro j hj
      exact h3 j (by omega)

/-- Witness for C4 at an initialized handle with both buffers null and a
burst of length 2. -/
theorem C4_witness :
    (pReady._initialized = true ∧ pReady._spi = true ∧ (0 : Nat) < 2) ∧
    (goodTrace pReady
        (PapilioSPI.transferBurst echoDev pReady () none none 2).2.2 ∧
      (sentBytes (PapilioSPI.transferBurst echoDev pReady () none none 2).2.2).length = 2 ∧
      (recvBytes (PapilioSPI.transferBurst echoDev pReady () none none 2).2.2).length = 2 ∧
      ((none : Option (Nat → Nat)) = none →
        sentBytes (PapilioSPI.transferBurst echoDev pReady () none none 2).2.2 =
          List.replicate 2 0) ∧
      ((none : Option (Nat → Nat)) = none →
        (PapilioSPI.transferBurst echoDev pReady () none none 2).2.1 = none) ∧
      (∀ g, (none : Option (Nat → Nat)) = some g → ∃ g2,
        (PapilioSPI.transferBurst echoDev pReady () none none 2).2.1 = some g2 ∧
        (∀ k, k < 2 → g2 k =
          (recvBytes (PapilioSPI.transferBurst echoDev pReady () none none 2).2.2).getD k 0) ∧
        (∀ j, 2 ≤ j → g2 j = g j))) :=
  ⟨⟨rfl, rfl, by decide⟩,
    C4_burst_buffers echoDev pReady () none none 2 rfl rfl (by decide)⟩
